import Mathlib

/-!
Shallow embedding of the cross-plane-agentic-ai-automation pipeline
(`src/llm_agent.py`, `src/enhanced_resource_generator.py`,
`src/github_integration.py`) together with theorems settling the frozen
claims about its specification.

Modelling conventions:
- Python strings are Lean `String`s (scanning is done on `List Char`);
  character classes are the ASCII classes used by the source's regexes.
- Python dicts whose insertion order matters (the generated configuration
  mappings, tag mappings) are association lists `List (String × α)`;
  `dict.update` is `dictUpdate` below.
- JSON values are the `Json` inductive; the standard library's
  `json.loads` is an external collaborator and is passed in as an
  abstract parameter `jp : String → Option Json` (`none` models a
  `JSONDecodeError`); numeric JSON literals are modelled as integers.
- `datetime.now().isoformat()` is an explicit parameter `now : String`.
- Exceptions become explicit result constructors; the `try`/`except`
  routing of `parse_request` and `create_automated_pr` is baked into the
  corresponding Lean functions exactly as the handlers dispatch.  The
  gpt-5 branch of `parse_request` dereferences the attribute
  `self.api_key`, which `__init__` never assigns, so that branch raises
  `AttributeError` before any collaborator attempt and the generic
  handler answers with the pattern fallback (see `parse_request_gpt5`).
-/

/-- JSON-like structured values, used both for the collaborator's parsed
output and for the generated configuration documents. -/
inductive Json where
  | null : Json
  | bool (b : Bool) : Json
  | str (s : String) : Json
  | num (n : Int) : Json
  | arr (elems : List Json) : Json
  | obj (fields : List (String × Json)) : Json

/-- First-match association-list lookup (Python dict indexing / `.get`). -/
def lookupJ (k : String) : List (String × Json) → Option Json
  | [] => none
  | (k', v) :: rest => if k' = k then some v else lookupJ k rest

/-- Field access on a JSON object; `none` on non-objects / missing keys. -/
def jGet (j : Json) (k : String) : Option Json :=
  match j with
  | .obj fields => lookupJ k fields
  | _ => none

/-- Chained field access along a path of object keys. -/
def jPath (j : Json) : List String → Option Json
  | [] => some j
  | k :: ks => match jGet j k with
    | some v => jPath v ks
    | none => none

/-- Head element of a JSON array (used to reach `rules[0]`). -/
def jHead (j : Json) : Option Json :=
  match j with
  | .arr (x :: _) => some x
  | _ => none

/-- Python `dict.update` on an association list: existing keys are
overwritten in place, new keys are appended in order. -/
def dictUpdate {α : Type} (base upd : List (String × α)) : List (String × α) :=
  match upd with
  | [] => base
  | (k, v) :: rest => dictUpdate (setKey base k v) rest
where
  /-- Overwrite the first occurrence of `k`, or append `(k, v)`. -/
  setKey : List (String × α) → String → α → List (String × α)
    | [], k, v => [(k, v)]
    | (k', v') :: t, k, v =>
      if k' = k then (k, v) :: t else (k', v') :: setKey t k v

/-- Membership of a string key in an association list. -/
def hasKey {α : Type} (l : List (String × α)) (k : String) : Bool :=
  l.any (fun kv => kv.1 = k)

/-- Whitespace as recognized by Python's `str.strip` / regex `\s`
(ASCII fragment: space, tab, newline, carriage return, vertical tab,
form feed). -/
def pyIsSpace (c : Char) : Bool :=
  c = ' ' || c = '\t' || c = '\n' || c = '\r' || c = '\x0b' || c = '\x0c'

/-- Python `str.strip()` (ASCII whitespace). -/
def pyStrip (s : String) : String :=
  String.mk (((s.toList.dropWhile pyIsSpace).reverse.dropWhile pyIsSpace).reverse)

/-- Python `str.lower()` restricted to ASCII: uppercase letters are
shifted by 32, everything else is unchanged. -/
def pyLowerChar (c : Char) : Char :=
  if h : 65 ≤ c.toNat ∧ c.toNat ≤ 90 then
    Char.ofNatAux (c.toNat + 32)
      (Or.inl (Nat.lt_of_le_of_lt (Nat.add_le_add_right h.2 32) (by norm_num)))
  else c

/-- Python `str.lower()` on a whole string. -/
def pyLower (s : String) : String :=
  String.mk (s.toList.map pyLowerChar)

/-- The regex class `[a-zA-Z0-9-]` of `_fallback_parse`'s name patterns. -/
def isNameChar (c : Char) : Bool :=
  (97 ≤ c.toNat && c.toNat ≤ 122) || (65 ≤ c.toNat && c.toNat ≤ 90) ||
    (48 ≤ c.toNat && c.toNat ≤ 57) || c.toNat = 45

/-- Python's ASCII lowercase class `[a-z]`. -/
def isLowerAlpha (c : Char) : Bool :=
  97 ≤ c.toNat && c.toNat ≤ 122

/-- Python's digit class `\d` (ASCII). -/
def isDigitChar (c : Char) : Bool :=
  48 ≤ c.toNat && c.toNat ≤ 57

/-- Substring containment, Python's `needle in hay`. -/
def containsSub (needle : List Char) : List Char → Bool
  | [] => needle.isEmpty
  | c :: rest => needle.isPrefixOf (c :: rest) || containsSub needle rest

/-- Substring containment lifted to strings (on the lowercased input the
source uses for keyword classification). -/
def strContains (hay needle : String) : Bool :=
  containsSub needle.toList hay.toList

/-- Decimal value of a digit run, Python's `int` on a `\d+` match. -/
def digitsToNat (l : List Char) : Nat :=
  l.foldl (fun acc c => 10 * acc + (c.toNat - 48)) 0

/-- The four resource types of `ResourceType` in `llm_agent.py`. -/
inductive ResourceType where
  | EKS_CLUSTER
  | S3_BUCKET
  | RDS_DATABASE
  | VPC
deriving DecidableEq

/-- String value of each enum member (`ResourceType(...)` values). -/
def ResourceType.value : ResourceType → String
  | .EKS_CLUSTER => "eks_cluster"
  | .S3_BUCKET => "s3_bucket"
  | .RDS_DATABASE => "rds_database"
  | .VPC => "vpc"

/-- Python `ResourceType(x)`: succeeds exactly on the four enum value
strings, raises `ValueError` (here `none`) on anything else. -/
def decodeResourceType : Json → Option ResourceType
  | .str "eks_cluster" => some .EKS_CLUSTER
  | .str "s3_bucket" => some .S3_BUCKET
  | .str "rds_database" => some .RDS_DATABASE
  | .str "vpc" => some .VPC
  | _ => none

/-- The `ResourceRequest` dataclass of `llm_agent.py`.  Field defaults
mirror the dataclass defaults. -/
structure ResourceRequest where
  resource_type : ResourceType
  name : String
  region : String := "us-east-1"
  environment : String := "development"
  node_count : Option Int := none
  kubernetes_version : Option String := none
  instance_types : Option (List String) := none
  versioning : Option Bool := none
  encryption : Option Bool := none
  engine : Option String := none
  instance_class : Option String := none
  allocated_storage : Option Int := none
  tags : Option (List (String × String)) := none
  description : Option String := none

/-- Python truthiness of an optional integer (`None` and `0` are falsy). -/
def truthyInt : Option Int → Bool
  | none => false
  | some n => n ≠ 0

/-- Python truthiness of an optional string (`None` and `""` are falsy). -/
def truthyStr : Option String → Bool
  | none => false
  | some s => s ≠ ""

/-- Python truthiness of an optional bool (`None` and `False` falsy). -/
def truthyBool : Option Bool → Bool
  | none => false
  | some b => b

/-- Python truthiness of an optional mapping (`None` and `{}` falsy). -/
def truthyTags : Option (List (String × String)) → Bool
  | none => false
  | some l => !l.isEmpty

/-- One attempt of the pattern `(?:called|named)\s+([a-zA-Z0-9-]+)` at a
fixed start position: keyword literal, then at least one whitespace
character, then the greedy capture group. -/
def tryCalledNamed (l : List Char) : Option (List Char) :=
  match stripKw "called".toList l with
  | some r => afterKw r
  | none => match stripKw "named".toList l with
    | some r => afterKw r
    | none => none
where
  /-- Literal-prefix match for the keyword alternative. -/
  stripKw : List Char → List Char → Option (List Char)
    | [], r => some r
    | _ :: _, [] => none
    | k :: ks, c :: cs => if k = c then stripKw ks cs else none
  /-- Consume the `\s+` then capture the `[a-zA-Z0-9-]+` group. -/
  afterKw (r : List Char) : Option (List Char) :=
    let ws := r.takeWhile pyIsSpace
    let r1 := r.dropWhile pyIsSpace
    let nm := r1.takeWhile isNameChar
    if ws.isEmpty || nm.isEmpty then none else some nm

/-- The search for `(?:called|named)\s+([a-zA-Z0-9-]+)`: try every start
position left to right (Python `re.search`). -/
def searchCalledNamed : List Char → Option (List Char)
  | [] => none
  | c :: rest =>
    match tryCalledNamed (c :: rest) with
    | some nm => some nm
    | none => searchCalledNamed rest

/-- One attempt of `([a-zA-Z0-9-]+)(?:\s+cluster|\s+bucket|\s+database)`
at a fixed start position.  The greedy group is forced to the maximal
name-character run (a shorter group would leave a name character where
whitespace is required), and `\s+` is forced to the maximal whitespace
run before the literal alternatives. -/
def tryNameBeforeKind (l : List Char) : Option (List Char) :=
  let nm := l.takeWhile isNameChar
  let r := l.dropWhile isNameChar
  let ws := r.takeWhile pyIsSpace
  let r2 := r.dropWhile pyIsSpace
  if nm.isEmpty || ws.isEmpty then none
  else if "cluster".toList.isPrefixOf r2 || "bucket".toList.isPrefixOf r2 ||
      "database".toList.isPrefixOf r2 then some nm
  else none

/-- The search for `([a-zA-Z0-9-]+)(?:\s+cluster|\s+bucket|\s+database)`. -/
def searchNameBeforeKind : List Char → Option (List Char)
  | [] => none
  | c :: rest =>
    match tryNameBeforeKind (c :: rest) with
    | some nm => some nm
    | none => searchNameBeforeKind rest

/-- One attempt of a region alternative `XY-[a-z]+-\d+` (with `XY-` one
of `us-`, `eu-`, `ap-`) at a fixed start position; the greedy runs are
forced as in `tryNameBeforeKind`. -/
def tryRegionAt (pfx : List Char) (l : List Char) : Option (List Char) :=
  match tryCalledNamed.stripKw pfx l with
  | none => none
  | some r =>
    let letters := r.takeWhile isLowerAlpha
    let r1 := r.dropWhile isLowerAlpha
    if letters.isEmpty then none
    else match r1 with
      | '-' :: r2 =>
        let digits := r2.takeWhile isDigitChar
        if digits.isEmpty then none
        else some (pfx ++ letters ++ '-' :: digits)
      | _ => none

/-- The search for `(us-[a-z]+-\d+|eu-[a-z]+-\d+|ap-[a-z]+-\d+)`; at any
single position at most one alternative can match (distinct first
letters), so ordered alternation reduces to trying each. -/
def searchRegion : List Char → Option (List Char)
  | [] => none
  | c :: rest =>
    match tryRegionAt "us-".toList (c :: rest) with
    | some g => some g
    | none => match tryRegionAt "eu-".toList (c :: rest) with
      | some g => some g
      | none => match tryRegionAt "ap-".toList (c :: rest) with
        | some g => some g
        | none => searchRegion rest

/-- One attempt of `(\d+)\s+nodes?` at a fixed start position (greedy
runs forced; the optional trailing `s` cannot affect success). -/
def tryNodeCount (l : List Char) : Option (List Char) :=
  let digits := l.takeWhile isDigitChar
  let r := l.dropWhile isDigitChar
  let ws := r.takeWhile pyIsSpace
  let r2 := r.dropWhile pyIsSpace
  if digits.isEmpty || ws.isEmpty then none
  else if "node".toList.isPrefixOf r2 then some digits
  else none

/-- The search for `(\d+)\s+nodes?`. -/
def searchNodeCount : List Char → Option (List Char)
  | [] => none
  | c :: rest =>
    match tryNodeCount (c :: rest) with
    | some d => some d
    | none => searchNodeCount rest

/-- The substitution `re.sub(r'[^a-zA-Z0-9-]', '-', name)` on one
character. -/
def subNameChar (c : Char) : Char :=
  if isNameChar c then c else '-'

/-- Python `user_input[:100]` used in the fallback description. -/
def pyTake100 (s : String) : String :=
  String.mk (s.toList.take 100)

/-- The tier-4 pattern-based fallback `LLMAgent._fallback_parse` of
`llm_agent.py` (lines 307-352), translated clause by clause. -/
def fallback_parse (user_input : String) : ResourceRequest :=
  let lower := pyLower user_input
  let resource_type : ResourceType :=
    if strContains lower "bucket" || strContains lower "s3" ||
        strContains lower "storage" then .S3_BUCKET
    else if strContains lower "database" || strContains lower "db" ||
        strContains lower "rds" || strContains lower "mysql" ||
        strContains lower "postgres" then .RDS_DATABASE
    else if strContains lower "vpc" || strContains lower "network" ||
        strContains lower "subnet" then .VPC
    else .EKS_CLUSTER
  let name0 : List Char :=
    match searchCalledNamed user_input.toList with
    | some g => g
    | none => match searchNameBeforeKind user_input.toList with
      | some g => g
      | none => "default-resource".toList
  let name := String.mk (name0.map (fun c => pyLowerChar (subNameChar c)))
  let region : String :=
    match searchRegion user_input.toList with
    | some g => String.mk g
    | none => "us-east-1"
  let environment : String :=
    if strContains lower "prod" || strContains lower "production" then
      "production"
    else if strContains lower "staging" || strContains lower "stage" then
      "staging"
    else "development"
  let node_count : Option Int :=
    if resource_type = .EKS_CLUSTER then
      match searchNodeCount user_input.toList with
      | some d => some (digitsToNat d : Int)
      | none => some 3
    else none
  { resource_type := resource_type
    name := name
    region := region
    environment := environment
    node_count := node_count
    kubernetes_version :=
      if resource_type = .EKS_CLUSTER then some "1.28" else none
    description := some ("Parsed from: " ++ pyTake100 user_input ++ "...") }

/-- Result of one collaborator call as seen by `parse_request`: either the
call raised (transport/config error) or it returned content (possibly
empty after stripping). -/
inductive AttemptResult where
  | exn : AttemptResult
  | ok (content : String) : AttemptResult

/-- Outcome of `LLMAgent.parse_request`:
- `request r`: a `ResourceRequest` was returned (possibly produced by the
  tier-4 pattern fallback);
- `resolutionError msg`: an `LLMParsingError` escaped (the spec's
  `ResolutionError`);
- `untypedRequest`: the source would return a request holding ill-typed
  JSON values (e.g. a non-string `name`), which the typed embedding does
  not represent; no claim depends on such runs. -/
inductive ParseOutcome where
  | request (r : ResourceRequest) : ParseOutcome
  | resolutionError (msg : String) : ParseOutcome
  | untypedRequest : ParseOutcome

/-- Split a character list around the first occurrence of `needle`,
returning what follows it. -/
def afterFirst (needle : List Char) : List Char → Option (List Char)
  | [] => if needle.isEmpty then some [] else none
  | c :: rest =>
    match tryCalledNamed.stripKw needle (c :: rest) with
    | some r => some r
    | none => afterFirst needle rest

/-- Characters strictly before the first occurrence of `needle`. -/
def beforeFirst (needle : List Char) : List Char → Option (List Char)
  | [] => if needle.isEmpty then some [] else none
  | c :: rest =>
    match tryCalledNamed.stripKw needle (c :: rest) with
    | some _ => some []
    | none => (beforeFirst needle rest).map (c :: ·)

/-- The markdown unwrapping of `parse_request` (llm_agent.py 262-267):
first occurrence of a fenced json block (regex with `re.DOTALL` and a
non-greedy body: first ` ```json ` fence, then up to the first closing
fence), else symmetric triple-backtick trimming, else the content
unchanged. -/
def extractMarkdown (content : String) : String :=
  match afterFirst "```json\n".toList content.toList with
  | some r =>
    match beforeFirst "\n```".toList r with
    | some mid => String.mk mid
    | none => fallbackTrim content
  | none => fallbackTrim content
where
  /-- The `content[3:-3].strip()` branch for symmetric plain fences. -/
  fallbackTrim (content : String) : String :=
    let l := content.toList
    if "```".toList.isPrefixOf l && "```".toList.isSuffixOf l then
      pyStrip (String.mk ((l.drop 3).take (l.length - 6)))
    else content

/-- Decode an optional string-typed field fetched with `.get`; `none` in
the middle component means the field is absent, `Except.error ()` means
it is present with a non-string value (unrepresentable, see
`ParseOutcome.untypedRequest`). -/
def getStrField (fields : List (String × Json)) (k : String) :
    Except Unit (Option String) :=
  match lookupJ k fields with
  | none => .ok none
  | some .null => .ok none
  | some (.str s) => .ok (some s)
  | some _ => .error ()

/-- Decode an optional integer-typed field. -/
def getIntField (fields : List (String × Json)) (k : String) :
    Except Unit (Option Int) :=
  match lookupJ k fields with
  | none => .ok none
  | some .null => .ok none
  | some (.num n) => .ok (some n)
  | some _ => .error ()

/-- Decode an optional boolean-typed field. -/
def getBoolField (fields : List (String × Json)) (k : String) :
    Except Unit (Option Bool) :=
  match lookupJ k fields with
  | none => .ok none
  | some .null => .ok none
  | some (.bool b) => .ok (some b)
  | some _ => .error ()

/-- Decode an optional string-array field. -/
def getStrListField (fields : List (String × Json)) (k : String) :
    Except Unit (Option (List String)) :=
  match lookupJ k fields with
  | none => .ok none
  | some .null => .ok none
  | some (.arr elems) =>
    (elems.mapM fun j => match j with
      | Json.str s => Except.ok s
      | _ => Except.error ()).map some
  | some _ => .error ()

/-- Decode a string field fetched with `.get(k, default)` into a
`str`-typed dataclass slot (`region`, `environment`): an absent key
yields the default; a present null or non-string value would be stored
in the `str`-typed field (unrepresentable in the typed embedding). -/
def getStrWithDefault (fields : List (String × Json)) (k dflt : String) :
    Except Unit String :=
  match lookupJ k fields with
  | none => .ok dflt
  | some (.str s) => .ok s
  | some _ => .error ()

/-- Decode the `tags` field fetched with `.get("tags", {})`: an absent
key yields the empty-mapping default, an explicit null is stored as
`None`, an object of string values is decoded, anything else is
unrepresentable. -/
def getTagsWithDefault (fields : List (String × Json)) (k : String) :
    Except Unit (Option (List (String × String))) :=
  match lookupJ k fields with
  | none => .ok (some [])
  | some .null => .ok none
  | some (.obj kvs) =>
    (kvs.mapM fun (kv : String × Json) => match kv.2 with
      | Json.str s => Except.ok (kv.1, s)
      | _ => Except.error ()).map some
  | some _ => .error ()

/-- Conversion of the parsed JSON into a `ResourceRequest`
(llm_agent.py 277-297), with the function's own exception routing
(298-305) applied: a `KeyError` on a required field or a `ValueError`
from `ResourceType(...)` is caught by the generic handler and answered
by the pattern fallback; the source performs no type validation on the
remaining fields, so ill-typed values produce `untypedRequest`. -/
def convertParsed (user_input : String) (v : Json) : ParseOutcome :=
  match v with
  | .obj fields =>
    match lookupJ "resource_type" fields with
    | none => .request (fallback_parse user_input)
    | some tv =>
      match decodeResourceType tv with
      | none => .request (fallback_parse user_input)
      | some rt =>
        match lookupJ "name" fields with
        | none => .request (fallback_parse user_input)
        | some (.str nm) =>
          match getStrWithDefault fields "region" "us-east-1",
              getStrWithDefault fields "environment" "development",
              getIntField fields "node_count",
              getStrField fields "kubernetes_version",
              getStrListField fields "instance_types",
              getBoolField fields "versioning",
              getBoolField fields "encryption" with
          | .ok rg, .ok env, .ok nc, .ok kv, .ok its, .ok vers, .ok enc =>
            match getStrField fields "engine",
                getStrField fields "instance_class",
                getIntField fields "allocated_storage",
                getTagsWithDefault fields "tags",
                getStrField fields "description" with
            | .ok eng, .ok icl, .ok alo, .ok tgs, .ok dsc =>
              .request
                { resource_type := rt
                  name := nm
                  region := rg
                  environment := env
                  node_count := nc
                  kubernetes_version := kv
                  instance_types := its
                  versioning := vers
                  encryption := enc
                  engine := eng
                  instance_class := icl
                  allocated_storage := alo
                  tags := tgs
                  description := dsc }
            | _, _, _, _, _ => .untypedRequest
          | _, _, _, _, _, _, _ => .untypedRequest
        | some _ => .untypedRequest
  | _ => .request (fallback_parse user_input)

/-- Processing of non-empty collaborator content (llm_agent.py 262-305):
markdown unwrapping, the empty-content check, `json.loads` (abstract
parameter `jp`), and field mapping, with `LLMParsingError` surfacing as
`resolutionError` and every other exception answered by the pattern
fallback. -/
def processContent (jp : String → Option Json) (user_input content0 : String) :
    ParseOutcome :=
  let content := extractMarkdown content0
  if content = "" then .resolutionError "LLM returned empty content."
  else
    match jp content with
    | none => .resolutionError "LLM output is not valid JSON"
    | some v => convertParsed user_input v

/-- The legacy-SDK path of `parse_request` (llm_agent.py 247-305) for
non-gpt-5 models: a transport/config exception from the collaborator
call reaches the generic handler (pattern fallback); returned content is
stripped and processed. -/
def parse_request_legacy (jp : String → Option Json) (user_input : String)
    (call : AttemptResult) : ParseOutcome :=
  match call with
  | .exn => .request (fallback_parse user_input)
  | .ok c => processContent jp user_input (pyStrip c)

/-- Python `str.startswith`. -/
def pyStartsWith (s pre : String) : Bool :=
  pre.toList.isPrefixOf s.toList

/-- `LLMAgent.parse_request` (llm_agent.py 65-305) for a given model
name: models whose name starts with `gpt-5` take the HTTP branch, which
dies on the unset `self.api_key` attribute and returns the pattern
fallback (see `parse_request_gpt5`); every other model runs the live
legacy-SDK path on the outcome of its one collaborator call. -/
def parse_request (jp : String → Option Json) (model user_input : String)
    (call : AttemptResult) : ParseOutcome :=
  if pyStartsWith model "gpt-5" then .request (fallback_parse user_input)
  else parse_request_legacy jp user_input call

/-- Python `str.upper()` restricted to ASCII. -/
def pyUpperChar (c : Char) : Char :=
  if h : 97 ≤ c.toNat ∧ c.toNat ≤ 122 then
    Char.ofNatAux (c.toNat - 32) (Or.inl (by omega))
  else c

/-- ASCII cased characters, the word constituents of Python's
`str.title()`. -/
def isAsciiAlpha (c : Char) : Bool :=
  (65 ≤ c.toNat && c.toNat ≤ 90) || (97 ≤ c.toNat && c.toNat ≤ 122)

/-- Worker for `pyTitle`; the flag records whether the previous character
was cased. -/
def pyTitleAux : Bool → List Char → List Char
  | _, [] => []
  | prevCased, c :: rest =>
    if isAsciiAlpha c then
      (if prevCased then pyLowerChar c else pyUpperChar c) :: pyTitleAux true rest
    else c :: pyTitleAux false rest

/-- Python `str.title()` (ASCII): the first cased character of every word
is uppercased, the remaining cased characters lowercased. -/
def pyTitle (s : String) : String :=
  String.mk (pyTitleAux false s.toList)

/-- Python `str.replace` for single characters. -/
def pyReplaceChar (a b : Char) (s : String) : String :=
  String.mk (s.toList.map fun c => if c = a then b else c)

/-- The user-tag key normalization `k.replace("_", "-").title()` used by
every generator. -/
def normTagKey (k : String) : String :=
  pyTitle (pyReplaceChar '_' '-' k)

/-- The tag-merging step shared by the generators
(enhanced_resource_generator.py 78-79 etc.): when the request carries a
truthy tag mapping, its entries are normalized (the comprehension builds
a dict, so duplicate normalized keys collapse) and merged over the
system tags with `dict.update`. -/
def mergeUserTags (sys : List (String × String))
    (user : Option (List (String × String))) : List (String × String) :=
  if truthyTags user then
    dictUpdate sys
      (dictUpdate [] ((user.getD []).map fun kv => (normTagKey kv.1, kv.2)))
  else sys

/-- Render a string-valued tag mapping as a JSON object. -/
def tagsJson (tags : List (String × String)) : Json :=
  .obj (tags.map fun kv => (kv.1, Json.str kv.2))

/-- `_get_default_instance_types` (enhanced_resource_generator.py
418-425). -/
def _get_default_instance_types (environment : String) : List String :=
  if environment = "production" then
    ["m6i.large", "m6i.xlarge", "m5.large", "m5.xlarge"]
  else if environment = "staging" then ["m6i.large", "m5.large", "t3.large"]
  else ["t3.medium", "t3.large"]

/-- `_get_default_db_instance_class` (enhanced_resource_generator.py
427-434). -/
def _get_default_db_instance_class (environment : String) : String :=
  if environment = "production" then "db.t3.medium"
  else if environment = "staging" then "db.t3.small"
  else "db.t3.micro"

/-- `_get_engine_version` (enhanced_resource_generator.py 436-443). -/
def _get_engine_version (engine : String) : String :=
  if engine = "mysql" then "8.0.35"
  else if engine = "postgres" then "15.4"
  else if engine = "mariadb" then "10.11.5"
  else "8.0.35"

/-- The per-environment templated value `{{ .Values.<env>.<field> }}`. -/
def envTemplate (environment field : String) : String :=
  "\x7b\x7b .Values." ++ environment ++ "." ++ field ++ " \x7d\x7d"

/-- The system tags of `_generate_eks_cluster`
(enhanced_resource_generator.py 71-76). -/
def eksSystemTags (environment now : String) : List (String × String) :=
  [("Environment", environment), ("CreatedBy", "crossplane-automation"),
   ("CreatedAt", now), ("Owner", "platform-team")]

/-- The provider-configuration document of `_generate_eks_cluster`
(enhanced_resource_generator.py 48-68). -/
def providerConfigDoc (r : ResourceRequest) : Json :=
  .obj
    [("apiVersion", .str "aws.crossplane.io/v1beta1"),
     ("kind", .str "ProviderConfig"),
     ("metadata", .obj
       [("name", .str (r.name ++ "-provider-config")),
        ("labels", .obj
          [("environment", .str r.environment),
           ("managed-by", .str "crossplane-automation")])]),
     ("spec", .obj
       [("credentials", .obj
         [("source", .str "Secret"),
          ("secretRef", .obj
            [("namespace", .str "crossplane-system"),
             ("name", .str "aws-secret"),
             ("key", .str "credentials")])])])]

/-- The cluster document of `_generate_eks_cluster`
(enhanced_resource_generator.py 82-130). -/
def eksClusterDoc (r : ResourceRequest) (now : String) : Json :=
  .obj
    [("apiVersion", .str "eks.aws.crossplane.io/v1alpha1"),
     ("kind", .str "Cluster"),
     ("metadata", .obj
       [("name", .str r.name),
        ("labels", .obj
          [("environment", .str r.environment),
           ("region", .str r.region),
           ("managed-by", .str "crossplane-automation")]),
        ("annotations", .obj
          [("crossplane.io/external-name", .str r.name)])]),
     ("spec", .obj
       [("forProvider", .obj
         [("region", .str r.region),
          ("roleArn", .str ("arn:aws:iam::\x7b\x7b .Values.awsAccountId \x7d\x7d:role/eks-cluster-role-" ++ r.environment)),
          ("version", .str (if truthyStr r.kubernetes_version then
            r.kubernetes_version.getD "" else "1.28")),
          ("resourcesVpcConfig", .obj
            [("securityGroupIds", .arr
              [.str (envTemplate r.environment "securityGroupId")]),
             ("subnetIds", .arr
               [.str (envTemplate r.environment "privateSubnet1Id"),
                .str (envTemplate r.environment "privateSubnet2Id")]),
             ("endpointConfigPrivateAccess", .bool true),
             ("endpointConfigPublicAccess",
               .bool (r.environment ≠ "production"))]),
          ("encryptionConfig", .obj
            [("resources", .arr [.str "secrets"]),
             ("provider", .obj
               [("keyArn", .str (envTemplate r.environment "kmsKeyArn"))])]),
          ("logging", .obj
            [("clusterLogging", .arr
              [.obj
                [("types", .arr
                  [.str "api", .str "audit", .str "authenticator",
                   .str "controllerManager", .str "scheduler"]),
                 ("enabled", .bool true)]])]),
          ("tags", tagsJson (mergeUserTags (eksSystemTags r.environment now) r.tags))]),
        ("providerConfigRef", .obj
          [("name", .str (r.name ++ "-provider-config"))])])]

/-- The node-group document of `_generate_eks_cluster`
(enhanced_resource_generator.py 132-185); `request.node_count or 3` and
`request.instance_types or default` follow Python truthiness. -/
def eksNodeGroupDoc (r : ResourceRequest) : Json :=
  let instance_types :=
    if (r.instance_types.getD []).isEmpty then
      _get_default_instance_types r.environment
    else r.instance_types.getD []
  let node_count : Int :=
    if truthyInt r.node_count then r.node_count.getD 0 else 3
  .obj
    [("apiVersion", .str "eks.aws.crossplane.io/v1alpha1"),
     ("kind", .str "NodeGroup"),
     ("metadata", .obj
       [("name", .str (r.name ++ "-node-group")),
        ("labels", .obj
          [("environment", .str r.environment),
           ("cluster", .str r.name)])]),
     ("spec", .obj
       [("forProvider", .obj
         [("clusterName", .str r.name),
          ("nodeRole", .str ("arn:aws:iam::\x7b\x7b .Values.awsAccountId \x7d\x7d:role/eks-node-group-role-" ++ r.environment)),
          ("subnets", .arr
            [.str (envTemplate r.environment "privateSubnet1Id"),
             .str (envTemplate r.environment "privateSubnet2Id")]),
          ("instanceTypes", .arr (instance_types.map Json.str)),
          ("scalingConfig", .obj
            [("minSize", .num (max 1 (node_count - 1))),
             ("maxSize", .num (node_count * 2)),
             ("desiredSize", .num node_count)]),
          ("updateConfig", .obj
            [("maxUnavailable", .num (if node_count > 2 then 1 else 0)),
             ("maxUnavailablePercentage", .num 25)]),
          ("labels", .obj
            [("node.kubernetes.io/role", .str "application"),
             ("environment", .str r.environment)]),
          ("taints",
            if r.environment ≠ "production" then .arr []
            else .arr
              [.obj
                [("key", .str "node.kubernetes.io/production"),
                 ("value", .str "true"),
                 ("effect", .str "NoSchedule")]]),
          ("tags", .obj
            [("Environment", .str r.environment),
             ("Cluster", .str r.name),
             ("NodeGroup", .str (r.name ++ "-node-group"))])]),
        ("providerConfigRef", .obj
          [("name", .str (r.name ++ "-provider-config"))])])]

/-- `_generate_eks_addons` (enhanced_resource_generator.py 379-416). -/
def _generate_eks_addons (r : ResourceRequest) : List (String × Json) :=
  [("aws_load_balancer_controller", .obj
    [("apiVersion", .str "eks.aws.crossplane.io/v1alpha1"),
     ("kind", .str "Addon"),
     ("metadata", .obj
       [("name", .str (r.name ++ "-aws-load-balancer-controller"))]),
     ("spec", .obj
       [("forProvider", .obj
         [("clusterName", .str r.name),
          ("addonName", .str "aws-load-balancer-controller"),
          ("addonVersion", .str "v1.6.2-eksbuild.1")])])]),
   ("ebs_csi_driver", .obj
    [("apiVersion", .str "eks.aws.crossplane.io/v1alpha1"),
     ("kind", .str "Addon"),
     ("metadata", .obj
       [("name", .str (r.name ++ "-ebs-csi-driver"))]),
     ("spec", .obj
       [("forProvider", .obj
         [("clusterName", .str r.name),
          ("addonName", .str "aws-ebs-csi-driver"),
          ("addonVersion", .str "v1.24.0-eksbuild.1")])])])]

/-- `_generate_eks_cluster` (enhanced_resource_generator.py 44-197): the
three base documents, extended by the add-ons exactly when the
environment is production. -/
def _generate_eks_cluster (r : ResourceRequest) (now : String) :
    List (String × Json) :=
  let base :=
    [("provider_config", providerConfigDoc r),
     ("cluster", eksClusterDoc r now),
     ("node_group", eksNodeGroupDoc r)]
  if r.environment = "production" then dictUpdate base (_generate_eks_addons r)
  else base

/-- The system tags of `_generate_s3_bucket`
(enhanced_resource_generator.py 203-207). -/
def s3SystemTags (environment now : String) : List (String × String) :=
  [("Environment", environment), ("CreatedBy", "crossplane-automation"),
   ("CreatedAt", now)]

/-- The server-side-encryption value of the bucket document
(enhanced_resource_generator.py 230-240): the key is always present; its
value is the populated rules object unless encryption is explicitly
`False`, in which case it is the empty mapping. -/
def s3SseValue (r : ResourceRequest) : Json :=
  if r.encryption ≠ some false then
    .obj
      [("rules", .arr
        [.obj
          [("applyServerSideEncryptionByDefault", .obj
            [("sseAlgorithm", .str
              (if !truthyBool r.encryption then "AES256" else "aws:kms")),
             ("kmsMasterKeyID",
               if truthyBool r.encryption then
                 .str (envTemplate r.environment "kmsKeyArn")
               else .null)]),
           ("bucketKeyEnabled", .bool (truthyBool r.encryption))]])]
  else .obj []

/-- `_generate_s3_bucket` (enhanced_resource_generator.py 199-280). -/
def _generate_s3_bucket (r : ResourceRequest) (now : String) :
    List (String × Json) :=
  [("bucket", .obj
    [("apiVersion", .str "s3.aws.crossplane.io/v1beta1"),
     ("kind", .str "Bucket"),
     ("metadata", .obj
       [("name", .str r.name),
        ("labels", .obj
          [("environment", .str r.environment),
           ("region", .str r.region),
           ("managed-by", .str "crossplane-automation")])]),
     ("spec", .obj
       [("forProvider", .obj
         [("region", .str r.region),
          ("acl", .str "private"),
          ("versioningConfiguration", .obj
            [("status", .str
              (if r.versioning ≠ some false then "Enabled" else "Suspended"))]),
          ("serverSideEncryptionConfiguration", s3SseValue r),
          ("publicAccessBlockConfiguration", .obj
            [("blockPublicAcls", .bool true),
             ("blockPublicPolicy", .bool true),
             ("ignorePublicAcls", .bool true),
             ("restrictPublicBuckets", .bool true)]),
          ("lifecycleConfiguration", .obj
            [("rules", .arr
              [.obj
                [("id", .str "DeleteIncompleteMultipartUploads"),
                 ("status", .str "Enabled"),
                 ("abortIncompleteMultipartUpload", .obj
                   [("daysAfterInitiation", .num 7)])],
               .obj
                [("id", .str "TransitionToIA"),
                 ("status", .str "Enabled"),
                 ("transitions", .arr
                   [.obj [("days", .num 30), ("storageClass", .str "STANDARD_IA")],
                    .obj [("days", .num 90), ("storageClass", .str "GLACIER")]])]])]),
          ("tags", tagsJson (mergeUserTags (s3SystemTags r.environment now) r.tags))]),
        ("providerConfigRef", .obj
          [("name", .str (r.name ++ "-provider-config"))])])])]

/-- `_generate_rds_database` (enhanced_resource_generator.py 282-343);
the `or` defaults follow Python truthiness. -/
def _generate_rds_database (r : ResourceRequest) (now : String) :
    List (String × Json) :=
  let engine := if truthyStr r.engine then r.engine.getD "" else "mysql"
  let instance_class :=
    if truthyStr r.instance_class then r.instance_class.getD ""
    else _get_default_db_instance_class r.environment
  let allocated_storage : Int :=
    if truthyInt r.allocated_storage then r.allocated_storage.getD 0 else 20
  let tags := mergeUserTags
    [("Environment", r.environment), ("CreatedBy", "crossplane-automation"),
     ("CreatedAt", now), ("Engine", engine)] r.tags
  [("database", .obj
    [("apiVersion", .str "rds.aws.crossplane.io/v1alpha1"),
     ("kind", .str "RDSInstance"),
     ("metadata", .obj
       [("name", .str r.name),
        ("labels", .obj
          [("environment", .str r.environment),
           ("engine", .str engine),
           ("managed-by", .str "crossplane-automation")])]),
     ("spec", .obj
       [("forProvider", .obj
         [("region", .str r.region),
          ("dbInstanceClass", .str instance_class),
          ("engine", .str engine),
          ("engineVersion", .str (_get_engine_version engine)),
          ("allocatedStorage", .num allocated_storage),
          ("storageType", .str "gp2"),
          ("storageEncrypted", .bool true),
          ("multiAZ", .bool (r.environment = "production")),
          ("publiclyAccessible", .bool false),
          ("vpcSecurityGroupIds", .arr
            [.str (envTemplate r.environment "databaseSecurityGroupId")]),
          ("dbSubnetGroupName", .str (envTemplate r.environment "dbSubnetGroupName")),
          ("backupRetentionPeriod", .num
            (if r.environment = "production" then 7 else 1)),
          ("backupWindow", .str "03:00-04:00"),
          ("maintenanceWindow", .str "sun:04:00-sun:05:00"),
          ("autoMinorVersionUpgrade", .bool (r.environment ≠ "production")),
          ("deletionProtection", .bool (r.environment = "production")),
          ("tags", tagsJson tags)]),
        ("providerConfigRef", .obj
          [("name", .str (r.name ++ "-provider-config"))]),
        ("writeConnectionSecretsToRef", .obj
          [("name", .str (r.name ++ "-db-connection")),
           ("namespace", .str "crossplane-system")])])])]

/-- `_generate_vpc` (enhanced_resource_generator.py 345-377). -/
def _generate_vpc (r : ResourceRequest) : List (String × Json) :=
  [("vpc", .obj
    [("apiVersion", .str "ec2.aws.crossplane.io/v1beta1"),
     ("kind", .str "VPC"),
     ("metadata", .obj
       [("name", .str r.name),
        ("labels", .obj
          [("environment", .str r.environment),
           ("managed-by", .str "crossplane-automation")])]),
     ("spec", .obj
       [("forProvider", .obj
         [("region", .str r.region),
          ("cidrBlock", .str "10.0.0.0/16"),
          ("enableDnsHostnames", .bool true),
          ("enableDnsSupport", .bool true),
          ("tags", .obj
            [("Name", .str r.name),
             ("Environment", .str r.environment),
             ("CreatedBy", .str "crossplane-automation")])]),
        ("providerConfigRef", .obj
          [("name", .str (r.name ++ "-provider-config"))])])])]

/-- `generate_from_request` (enhanced_resource_generator.py 23-42): a
closed dispatch on the four enumerated resource types (the source's
defensive `else` branch is unreachable because the enum has exactly
these members). -/
def generate_from_request (r : ResourceRequest) (now : String) :
    List (String × Json) :=
  match r.resource_type with
  | .EKS_CLUSTER => _generate_eks_cluster r now
  | .S3_BUCKET => _generate_s3_bucket r now
  | .RDS_DATABASE => _generate_rds_database r now
  | .VPC => _generate_vpc r

/-- Python `str.isalnum()` (ASCII fragment): non-empty and every
character alphanumeric. -/
def pyIsAlnum (s : String) : Bool :=
  !s.isEmpty && s.toList.all (fun c => c.isAlphanum)

/-- The expression `request.name.replace('-', '').replace('_', '')` of
the name validation: the name with every hyphen and underscore
removed. -/
def nameSepStripped (s : String) : String :=
  String.mk ((s.toList.filter (· ≠ '-')).filter (· ≠ '_'))

/-- The anchored regex `^\d+\.\d+(\.\d+)?$` of the version validation;
`$` also matches just before a single final newline (Python `re.match`
with a `$` anchor). -/
def matchesVersion (s : String) : Bool :=
  versionCore (stripOneFinalNewline s.toList)
where
  /-- Drop one trailing newline if present (the `$` anchor's tolerance). -/
  stripOneFinalNewline (l : List Char) : List Char :=
    match l.reverse with
    | '\n' :: rest => rest.reverse
    | _ => l
  /-- Match `\d+\.\d+(\.\d+)?` against the whole remaining input. -/
  versionCore (l : List Char) : Bool :=
    let d1 := l.takeWhile isDigitChar
    let r1 := l.dropWhile isDigitChar
    if d1.isEmpty then false
    else match r1 with
      | '.' :: r2 =>
        let d2 := r2.takeWhile isDigitChar
        let r3 := r2.dropWhile isDigitChar
        if d2.isEmpty then false
        else match r3 with
          | [] => true
          | '.' :: r4 =>
            let d3 := r4.takeWhile isDigitChar
            let r5 := r4.dropWhile isDigitChar
            !d3.isEmpty && r5.isEmpty
          | _ => false
      | _ => false

/-- The anchored regex `^[a-z0-9.-]+$` of the bucket-name validation,
with the same final-newline tolerance of `$`. -/
def matchesS3Name (s : String) : Bool :=
  match stripNl s.toList with
  | [] => false
  | l => l.all fun c => isLowerAlpha c || isDigitChar c || c = '.' || c = '-'
where
  /-- Drop one trailing newline if present. -/
  stripNl (l : List Char) : List Char :=
    match l.reverse with
    | '\n' :: rest => rest.reverse
    | _ => l

/-- The issue strings of `validate_request`. -/
def nameLenIssue : String := "Resource name must be at least 3 characters long"

/-- Issue string for the name character-class rule. -/
def nameCharsIssue : String :=
  "Resource name can only contain letters, numbers, hyphens, and underscores"

/-- `validate_request` (enhanced_resource_generator.py 492-541),
appending issues in source order; the node-count, kubernetes-version,
allocated-storage and engine guards use Python truthiness
(`if request.node_count and ...`, `if request.kubernetes_version:`), so
a present node count of `0` and a present empty version string skip
their checks. -/
def validate_request (r : ResourceRequest) : List String :=
  (if r.name = "" || r.name.length < 3 then [nameLenIssue] else [])
  ++ (if !pyIsAlnum (nameSepStripped r.name) then [nameCharsIssue] else [])
  ++ (match r.resource_type with
    | .EKS_CLUSTER =>
      (if truthyInt r.node_count && r.node_count.getD 0 < 1 then
        ["Node count must be at least 1"] else [])
      ++ (if truthyInt r.node_count && r.node_count.getD 0 > 20 then
        ["Node count should not exceed 20 without special consideration"] else [])
      ++ (if truthyStr r.kubernetes_version &&
            !matchesVersion (r.kubernetes_version.getD "") then
        ["Kubernetes version must be in format X.Y or X.Y.Z"] else [])
    | .S3_BUCKET =>
      (if r.name.length > 63 then ["S3 bucket name cannot exceed 63 characters"] else [])
      ++ (if !matchesS3Name r.name then
        ["S3 bucket name can only contain lowercase letters, numbers, dots, and hyphens"] else [])
    | .RDS_DATABASE =>
      (if truthyInt r.allocated_storage && r.allocated_storage.getD 0 < 20 then
        ["RDS allocated storage must be at least 20 GB"] else [])
      ++ (if truthyStr r.engine &&
            !(r.engine.getD "" = "mysql" || r.engine.getD "" = "postgres" ||
              r.engine.getD "" = "mariadb") then
        ["Supported database engines: mysql, postgres, mariadb"] else [])
    | .VPC => [])

/-- A publishable file: `(path, content)` as produced by
`save_configurations_as_files`. -/
abbrev PubFile := String × String

/-- Stubbed behavior of the hosting collaborator for one
`create_automated_pr` run: whether branch creation succeeds, the
per-file outcome of `create_or_update_file` (by file position), whether
pull-request creation succeeds, and whether the rollback deletion call
itself raises. -/
structure HostStub where
  branchCreateOk : Bool
  fileOk : Nat → Bool
  prOk : Bool
  deleteRaises : Bool

/-- `GitHubIntegration.commit_files` (github_integration.py 162-200): a
file whose individual commit raises is logged and skipped, the rest
continue; the returned list keeps the successfully committed files in
order. -/
def commit_files (fileOk : Nat → Bool) (files : List PubFile) : List PubFile :=
  (files.enum.filter fun p => fileOk p.1).map (·.2)

/-- Outcome of `create_automated_pr`: either the returned result payload
or the exception that propagated (`GitHubAPIError`, the spec's
`PublicationError`). -/
inductive PubOutcome where
  | success (branch : String) (commits : List PubFile) : PubOutcome
  | raised (msg : String) : PubOutcome

/-- `GitHubIntegration.create_automated_pr` (github_integration.py
239-289).  Returns the outcome together with the list of branch names
passed to `delete_branch` during the run.  On any exception inside the
`try` block the handler attempts exactly one deletion of the derived
branch name and re-raises the original error; the bare `except: pass`
around the deletion discards its outcome (`stub.deleteRaises` cannot
influence anything), so deletion failures never mask the primary
error. -/
def create_automated_pr (stub : HostStub) (files : List PubFile)
    (branchPfx timestamp : String) : PubOutcome × List String :=
  let branch_name := branchPfx ++ "-" ++ timestamp
  if !stub.branchCreateOk then
    (.raised "Failed to create branch", [branch_name])
  else
    let commits := commit_files stub.fileOk files
    if commits.isEmpty then
      (.raised "No files were successfully committed", [branch_name])
    else if !stub.prOk then
      (.raised "Failed to create pull request", [branch_name])
    else (.success branch_name commits, [])

/-- A generated document playing the "provider configuration" role and
referencing the fixed namespaced credential secret
(`crossplane-system` / `aws-secret`). -/
def isProviderConfigDoc (j : Json) : Bool :=
  (match jGet j "kind" with
    | some (.str s) => s = "ProviderConfig"
    | _ => false)
  && (match jPath j ["spec", "credentials", "secretRef", "namespace"] with
    | some (.str s) => s = "crossplane-system"
    | _ => false)
  && (match jPath j ["spec", "credentials", "secretRef", "name"] with
    | some (.str s) => s = "aws-secret"
    | _ => false)

/-- The logical roles (dictionary keys) of a synthesized document set. -/
def docRoles (cfgs : List (String × Json)) : List String :=
  cfgs.map (·.1)

/-- The bucket document's server-side-encryption value as looked up in
the synthesis output of an object-store request. -/
def bucketSse (r : ResourceRequest) (now : String) : Option Json :=
  match lookupJ "bucket" (generate_from_request r now) with
  | some doc =>
    jPath doc ["spec", "forProvider", "serverSideEncryptionConfiguration"]
  | none => none

/-- The encryption algorithm recorded inside the bucket document's
server-side-encryption rules. -/
def bucketSseAlgorithm (r : ResourceRequest) (now : String) : Option Json :=
  match bucketSse r now with
  | some sse =>
    match jGet sse "rules" with
    | some rules =>
      match jHead rules with
      | some rule =>
        jPath rule ["applyServerSideEncryptionByDefault", "sseAlgorithm"]
      | none => none
    | none => none
  | none => none

/-- The alphabet `[a-z0-9-]` claimed for fallback names. -/
def isSafeNameChar (c : Char) : Bool :=
  (97 ≤ c.toNat && c.toNat ≤ 122) || (48 ≤ c.toNat && c.toNat ≤ 57) ||
    c.toNat = 45

theorem char_toNat_ofNatAux (n : Nat) (h : Nat.isValidChar n) :
    (Char.ofNatAux n h).toNat = n := rfl

theorem mem_ite_singleton {c : Prop} [Decidable c] {a b : String} :
    (a ∈ (if c then [b] else [])) ↔ (c ∧ a = b) := by
  split <;> simp_all

theorem safe_lower_sub (c : Char) :
    isSafeNameChar (pyLowerChar (subNameChar c)) = true := by
  unfold subNameChar
  by_cases h : isNameChar c
  · rw [if_pos h]
    unfold isNameChar at h
    unfold pyLowerChar isSafeNameChar
    by_cases h2 : 65 ≤ c.toNat ∧ c.toNat ≤ 90
    · rw [dif_pos h2]
      rw [char_toNat_ofNatAux]
      simp only [Bool.or_eq_true, Bool.and_eq_true, decide_eq_true_eq] at h ⊢
      omega
    · rw [dif_neg h2]
      simp only [Bool.or_eq_true, Bool.and_eq_true, decide_eq_true_eq] at h ⊢
      omega
  · rw [if_neg h]
    decide

theorem afterKw_ne (r g : List Char) (h : tryCalledNamed.afterKw r = some g) :
    g ≠ [] := by
  simp only [tryCalledNamed.afterKw] at h
  split at h
  · exact absurd h (by simp)
  · rename_i hcond
    injection h with h2
    subst h2
    simp only [Bool.or_eq_true, List.isEmpty_iff] at hcond
    intro hnil
    exact hcond (Or.inr hnil)

theorem tryCalledNamed_ne (l g : List Char) (h : tryCalledNamed l = some g) :
    g ≠ [] := by
  unfold tryCalledNamed at h
  split at h
  · exact afterKw_ne _ _ h
  · split at h
    · exact afterKw_ne _ _ h
    · exact absurd h (by simp)

theorem searchCalledNamed_ne (l g : List Char)
    (h : searchCalledNamed l = some g) : g ≠ [] := by
  induction l with
  | nil => simp [searchCalledNamed] at h
  | cons c rest ih =>
    unfold searchCalledNamed at h
    split at h
    · injection h with h2
      subst h2
      exact tryCalledNamed_ne _ _ (by assumption)
    · exact ih h

theorem tryNameBeforeKind_ne (l g : List Char)
    (h : tryNameBeforeKind l = some g) : g ≠ [] := by
  simp only [tryNameBeforeKind] at h
  split at h
  · exact absurd h (by simp)
  · rename_i hcond
    split at h
    · injection h with h2
      subst h2
      simp only [Bool.or_eq_true, List.isEmpty_iff] at hcond
      intro hnil
      exact hcond (Or.inl hnil)
    · exact absurd h (by simp)

theorem searchNameBeforeKind_ne (l g : List Char)
    (h : searchNameBeforeKind l = some g) : g ≠ [] := by
  induction l with
  | nil => simp [searchNameBeforeKind] at h
  | cons c rest ih =>
    unfold searchNameBeforeKind at h
    split at h
    · injection h with h2
      subst h2
      exact tryNameBeforeKind_ne _ _ (by assumption)
    · exact ih h

/-- Claim C4 (code-bug evidence).  The validator's node-count guard is
written `if request.node_count and request.node_count < 1`, and a
present node count of `0` is falsy in Python, so the out-of-range value
`0` is reported as valid: `validate_request` returns no issues for an
otherwise-valid cluster request with `node_count = 0`, although `0 < 1`
and the claim (and spec) require a node-count issue.  A node count of
`-1` (truthy) is flagged, confirming that only the zero case escapes. -/
theorem c4_zero_node_count_not_flagged :
    validate_request
        { resource_type := .EKS_CLUSTER, name := "abc", node_count := some 0 }
      = []
    ∧ (0 : Int) < 1
    ∧ validate_request
        { resource_type := .EKS_CLUSTER, name := "abc", node_count := some (-1) }
      = ["Node count must be at least 1"]
    ∧ validate_request
        { resource_type := .EKS_CLUSTER, name := "abc", node_count := some 21 }
      = ["Node count should not exceed 20 without special consideration"] := by
  refine ⟨by decide, by decide, by decide, by decide⟩

/-- Claim C5 (counterexample).  The name `"---"` has length 3 and
consists only of characters from the allowed set (letters, digits,
hyphens, underscores), so under the claim it must receive no name issue;
but `"---".replace('-', '').replace('_', '')` is the empty string, whose
`isalnum()` is `False`, so `validate_request` reports the
character-class issue. -/
theorem c5_counterexample_all_hyphens :
    validate_request { resource_type := .VPC, name := "---" } = [nameCharsIssue]
    ∧ 3 ≤ "---".length
    ∧ "---".toList.all
        (fun c => c.isAlpha || c.isDigit || c = '-' || c = '_') = true := by
  refine ⟨by decide, by decide, by decide⟩

/-- Claim C5 (amended).  For every request, `validate_request` reports
the name-length issue exactly when the name is shorter than 3
characters, and reports the character-class issue exactly when the name
stripped of hyphens and underscores fails Python's `isalnum` test —
i.e. when the name contains a character outside letters, digits,
hyphens and underscores, or consists exclusively of hyphens and
underscores.  (The original claim wrongly accepted all-separator names
such as `"---"`.) -/
theorem c5_name_issue_characterization (r : ResourceRequest) :
    (nameLenIssue ∈ validate_request r ↔ r.name.length < 3)
    ∧ (nameCharsIssue ∈ validate_request r ↔
        pyIsAlnum (nameSepStripped r.name) = false) := by
  constructor
  · unfold validate_request
    cases hrt : r.resource_type <;>
      (try cases hkv : r.kubernetes_version) <;>
      simp [mem_ite_singleton, nameLenIssue, nameCharsIssue] <;>
      (intro h; rw [h]; decide)
  · unfold validate_request
    cases hrt : r.resource_type <;>
      (try cases hkv : r.kubernetes_version) <;>
      simp [mem_ite_singleton, nameLenIssue, nameCharsIssue, nameSepStripped]

/-- Claim C5 (witness for the amended characterization): the minimal
valid 3-character name gets no issues, a 2-character name gets exactly
the length issue. -/
theorem c5_name_issue_characterization_witness :
    (nameLenIssue ∈ validate_request { resource_type := .VPC, name := "abc" } ↔
      ("abc".length < 3))
    ∧ (nameCharsIssue ∈ validate_request { resource_type := .VPC, name := "ab" } ↔
        pyIsAlnum (nameSepStripped "ab") = false) :=
  ⟨(c5_name_issue_characterization { resource_type := .VPC, name := "abc" }).1,
   (c5_name_issue_characterization { resource_type := .VPC, name := "ab" }).2⟩

/-- Claim C9 (confirmed).  In the tag-merging step of synthesis, merging
an empty (or absent) user-tag mapping onto the system tags is the
identity, and merging the single user tag `cost_center ↦ x` overrides no
system key and appends exactly the normalized key `Cost-Center`. -/
theorem c9_tag_merge (env now : String) :
    mergeUserTags (eksSystemTags env now) none = eksSystemTags env now
    ∧ mergeUserTags (eksSystemTags env now) (some []) = eksSystemTags env now
    ∧ mergeUserTags (eksSystemTags env now) (some [("cost_center", "x")])
        = eksSystemTags env now ++ [("Cost-Center", "x")]
    ∧ hasKey (eksSystemTags env now) "Cost-Center" = false :=
  ⟨rfl, rfl, rfl, rfl⟩

/-- Claim C7 (confirmed).  When branch creation succeeds and every
per-file commit fails — so zero files are committed — `create_automated_pr`
raises the publication error "No files were successfully committed" and
performs exactly one branch-deletion call, on the just-created branch;
the outcome is the same whether or not the deletion itself raises
(`dRaises` is arbitrary), so deletion failures never mask the primary
error. -/
theorem c7_rollback_on_zero_commits (files : List PubFile)
    (fOk : Nat → Bool) (pOk dRaises : Bool) (branchPfx ts : String)
    (hfail : ∀ i, fOk i = false) :
    create_automated_pr
        { branchCreateOk := true, fileOk := fOk, prOk := pOk,
          deleteRaises := dRaises } files branchPfx ts
      = (.raised "No files were successfully committed",
         [branchPfx ++ "-" ++ ts]) := by
  simp [create_automated_pr, commit_files, hfail]

/-- Claim C7 (witness): a concrete run with one file whose commit fails,
with a raising deletion stub. -/
theorem c7_rollback_on_zero_commits_witness :
    create_automated_pr
        { branchCreateOk := true, fileOk := fun _ => false, prOk := true,
          deleteRaises := true }
        [("crossplane/development/abc-bucket.yaml", "doc")] "automation"
        "20260101-000000"
      = (.raised "No files were successfully committed",
         ["automation-20260101-000000"]) :=
  c7_rollback_on_zero_commits _ _ _ _ _ _ (fun _ => rfl)

/-- Claim C1 (counterexample).  For the validated object-store request
named `abc` (it passes `validate_request` with no issues), the document
set returned by `generate_from_request` consists of the bucket document
alone: no document in the set is a provider-configuration document
referencing the `crossplane-system`/`aws-secret` credential secret,
although the claim requires one for every enumerated resource type. -/
theorem c1_counterexample_s3_has_no_provider_config :
    validate_request { resource_type := .S3_BUCKET, name := "abc" } = []
    ∧ docRoles (generate_from_request
        { resource_type := .S3_BUCKET, name := "abc" } "T") = ["bucket"]
    ∧ (generate_from_request { resource_type := .S3_BUCKET, name := "abc" } "T").all
        (fun kv => !(isProviderConfigDoc kv.2)) = true := by
  refine ⟨by decide, rfl, rfl⟩

/-- Claim C1 (amended).  Only cluster requests receive the
provider-configuration document: for every request and timestamp, a
cluster request's document set contains (under the role
`provider_config`) a document referencing the fixed
`crossplane-system`/`aws-secret` credential secret, while the document
sets of the other three resource types contain no provider-configuration
document at all (their documents only reference it by name through
`providerConfigRef`). -/
theorem c1_provider_config_only_for_clusters (r : ResourceRequest)
    (now : String) :
    (r.resource_type = .EKS_CLUSTER →
      lookupJ "provider_config" (generate_from_request r now)
          = some (providerConfigDoc r)
        ∧ isProviderConfigDoc (providerConfigDoc r) = true)
    ∧ (r.resource_type ≠ .EKS_CLUSTER →
      (generate_from_request r now).all
          (fun kv => !(isProviderConfigDoc kv.2)) = true) := by
  constructor
  · intro h
    have hg : generate_from_request r now = _generate_eks_cluster r now := by
      unfold generate_from_request
      rw [h]
    refine ⟨?_, rfl⟩
    rw [hg]
    unfold _generate_eks_cluster
    by_cases he : r.environment = "production"
    · rw [if_pos he]
      rfl
    · rw [if_neg he]
      rfl
  · intro h
    cases hrt : r.resource_type with
    | EKS_CLUSTER => exact absurd hrt h
    | S3_BUCKET =>
      have hg : generate_from_request r now = _generate_s3_bucket r now := by
        unfold generate_from_request
        rw [hrt]
      rw [hg]
      rfl
    | RDS_DATABASE =>
      have hg : generate_from_request r now = _generate_rds_database r now := by
        unfold generate_from_request
        rw [hrt]
      rw [hg]
      rfl
    | VPC =>
      have hg : generate_from_request r now = _generate_vpc r := by
        unfold generate_from_request
        rw [hrt]
      rw [hg]
      rfl

/-- Claim C1 (witness): the amended statement applied to a concrete
cluster request and a concrete network request. -/
theorem c1_provider_config_only_for_clusters_witness :
    (lookupJ "provider_config" (generate_from_request
          { resource_type := .EKS_CLUSTER, name := "abc" } "T")
        = some (providerConfigDoc { resource_type := .EKS_CLUSTER, name := "abc" })
      ∧ isProviderConfigDoc
          (providerConfigDoc { resource_type := .EKS_CLUSTER, name := "abc" }) = true)
    ∧ (generate_from_request { resource_type := .VPC, name := "net" } "T").all
        (fun kv => !(isProviderConfigDoc kv.2)) = true :=
  ⟨(c1_provider_config_only_for_clusters
      { resource_type := .EKS_CLUSTER, name := "abc" } "T").1 rfl,
   (c1_provider_config_only_for_clusters
      { resource_type := .VPC, name := "net" } "T").2 (by decide)⟩

/-- Claim C3 (counterexample).  For an object-store request with
encryption explicitly disabled, the bucket document's
`serverSideEncryptionConfiguration` key is NOT omitted: it is present
and maps to the empty object (the source's
`{...} if request.encryption != False else {}` puts `{}` under the key
rather than dropping the key). -/
theorem c3_counterexample_disabled_encryption_key_present :
    bucketSse { resource_type := .S3_BUCKET, name := "abc",
                encryption := some false } "T" = some (Json.obj []) := rfl

/-- Claim C3 (amended).  For every object-store request, the bucket
document's server-side-encryption entry is present under all three
encryption states: it is the empty object when encryption is explicitly
disabled, and a populated rules block otherwise, whose algorithm is
`aws:kms` when encryption was explicitly requested and `AES256` when it
is unspecified.  (The original claim said the block is "entirely
omitted" when disabled; it is present but empty.) -/
theorem c3_sse_tristate (r : ResourceRequest) (now : String)
    (h : r.resource_type = .S3_BUCKET) :
    (r.encryption = some false → bucketSse r now = some (Json.obj []))
    ∧ (r.encryption = some true →
        bucketSseAlgorithm r now = some (.str "aws:kms"))
    ∧ (r.encryption = none →
        bucketSseAlgorithm r now = some (.str "AES256")) := by
  have hg : generate_from_request r now = _generate_s3_bucket r now := by
    unfold generate_from_request
    rw [h]
  refine ⟨fun he => ?_, fun he => ?_, fun he => ?_⟩
  · unfold bucketSse
    rw [hg]
    simp only [_generate_s3_bucket, s3SseValue, he]
    simp [jPath, jGet, lookupJ]
  · unfold bucketSseAlgorithm bucketSse
    rw [hg]
    simp only [_generate_s3_bucket, s3SseValue, he]
    simp [jPath, jGet, lookupJ, jHead, truthyBool]
  · unfold bucketSseAlgorithm bucketSse
    rw [hg]
    simp only [_generate_s3_bucket, s3SseValue, he]
    simp [jPath, jGet, lookupJ, jHead, truthyBool]

/-- Claim C3 (witness): the amended tristate behavior at three concrete
object-store requests. -/
theorem c3_sse_tristate_witness :
    bucketSse
        { resource_type := .S3_BUCKET, name := "abc", encryption := some false }
        "T" = some (Json.obj [])
    ∧ bucketSseAlgorithm
        { resource_type := .S3_BUCKET, name := "abc", encryption := some true }
        "T" = some (.str "aws:kms")
    ∧ bucketSseAlgorithm { resource_type := .S3_BUCKET, name := "abc" } "T"
        = some (.str "AES256") :=
  ⟨(c3_sse_tristate
      { resource_type := .S3_BUCKET, name := "abc", encryption := some false }
      "T" rfl).1 rfl,
   (c3_sse_tristate
      { resource_type := .S3_BUCKET, name := "abc", encryption := some true }
      "T" rfl).2.1 rfl,
   (c3_sse_tristate { resource_type := .S3_BUCKET, name := "abc" } "T" rfl).2.2 rfl⟩

/-- Claim C8 (confirmed).  For every cluster request, the roles of the
document set synthesized with environment `production` are exactly the
roles synthesized for the otherwise-identical request with environment
`development` extended by the two add-on roles (load-balancer controller
and EBS CSI driver), and for every non-production environment the two
add-on roles are absent. -/
theorem c8_production_addon_superset (r : ResourceRequest) (now : String)
    (h : r.resource_type = .EKS_CLUSTER) :
    docRoles (generate_from_request { r with environment := "production" } now)
      = docRoles (generate_from_request { r with environment := "development" } now)
        ++ ["aws_load_balancer_controller", "ebs_csi_driver"]
    ∧ ∀ env : String, env ≠ "production" →
        "aws_load_balancer_controller"
            ∉ docRoles (generate_from_request { r with environment := env } now)
        ∧ "ebs_csi_driver"
            ∉ docRoles (generate_from_request { r with environment := env } now) := by
  have hgen : ∀ env : String,
      generate_from_request { r with environment := env } now
        = _generate_eks_cluster { r with environment := env } now := by
    intro env
    unfold generate_from_request
    rw [show ({ r with environment := env } : ResourceRequest).resource_type
        = .EKS_CLUSTER from h]
  constructor
  · rw [hgen, hgen]
    rfl
  · intro env henv
    rw [hgen]
    unfold _generate_eks_cluster
    rw [if_neg (by simpa using henv)]
    constructor <;> simp [docRoles]

/-- Claim C8 (witness): a concrete cluster request, with the
non-production absence instantiated at `staging`. -/
theorem c8_production_addon_superset_witness :
    docRoles (generate_from_request
        { resource_type := .EKS_CLUSTER, name := "abc",
          environment := "production" } "T")
      = docRoles (generate_from_request
          { resource_type := .EKS_CLUSTER, name := "abc",
            environment := "development" } "T")
        ++ ["aws_load_balancer_controller", "ebs_csi_driver"]
    ∧ "aws_load_balancer_controller"
        ∉ docRoles (generate_from_request
            { resource_type := .EKS_CLUSTER, name := "abc",
              environment := "staging" } "T")
    ∧ "ebs_csi_driver"
        ∉ docRoles (generate_from_request
            { resource_type := .EKS_CLUSTER, name := "abc",
              environment := "staging" } "T") :=
  ⟨(c8_production_addon_superset
      { resource_type := .EKS_CLUSTER, name := "abc" } "T" rfl).1,
   ((c8_production_addon_superset
      { resource_type := .EKS_CLUSTER, name := "abc" } "T" rfl).2 "staging"
        (by decide)).1,
   ((c8_production_addon_superset
      { resource_type := .EKS_CLUSTER, name := "abc" } "T" rfl).2 "staging"
        (by decide)).2⟩

theorem fallback_parse_name_eq (u : String) :
    (fallback_parse u).name = String.mk
      ((match searchCalledNamed u.toList with
        | some g => g
        | none => match searchNameBeforeKind u.toList with
          | some g => g
          | none => "default-resource".toList).map
        (fun c => pyLowerChar (subNameChar c))) := rfl

/-- Claim C10 (confirmed).  `_fallback_parse` is total by construction
(it is a Lean function `String → ResourceRequest`), and the name it
returns is always non-empty and drawn from the lowercase alphabet
`[a-z0-9-]` (the substitution maps every character into `[a-zA-Z0-9-]`
and the final lowering removes the uppercase range); when neither the
"called/named X" pattern nor the "X cluster/bucket/database" pattern
matches, the name is the fixed identifier `default-resource`. -/
theorem c10_fallback_name_well_formed (u : String) :
    (fallback_parse u).name ≠ ""
    ∧ (fallback_parse u).name.toList.all isSafeNameChar = true
    ∧ (searchCalledNamed u.toList = none →
        searchNameBeforeKind u.toList = none →
        (fallback_parse u).name = "default-resource") := by
  rw [fallback_parse_name_eq]
  cases h1 : searchCalledNamed u.toList with
  | some g =>
    refine ⟨?_, ?_, ?_⟩
    · intro hcontra
      have hm : (g.map fun c => pyLowerChar (subNameChar c)) = [] :=
        congrArg String.data hcontra
      exact searchCalledNamed_ne _ _ h1 (List.map_eq_nil_iff.mp hm)
    · show (g.map fun c => pyLowerChar (subNameChar c)).all isSafeNameChar = true
      rw [List.all_map]
      exact List.all_eq_true.mpr fun c _ => safe_lower_sub c
    · intro hc
      exact Option.noConfusion hc
  | none =>
    cases h2 : searchNameBeforeKind u.toList with
    | some g =>
      refine ⟨?_, ?_, ?_⟩
      · intro hcontra
        have hm : (g.map fun c => pyLowerChar (subNameChar c)) = [] :=
          congrArg String.data hcontra
        exact searchNameBeforeKind_ne _ _ h2 (List.map_eq_nil_iff.mp hm)
      · show (g.map fun c => pyLowerChar (subNameChar c)).all isSafeNameChar = true
        rw [List.all_map]
        exact List.all_eq_true.mpr fun c _ => safe_lower_sub c
      · intro _ hc
        exact Option.noConfusion hc
    | none =>
      refine ⟨by decide, by decide, fun _ _ => by decide⟩

/-- Claim C10 (witness): on an input matching neither name pattern the
fallback name is the fixed identifier. -/
theorem c10_fallback_name_well_formed_witness :
    (fallback_parse "hello").name ≠ ""
    ∧ (fallback_parse "hello").name.toList.all isSafeNameChar = true
    ∧ (fallback_parse "hello").name = "default-resource" :=
  ⟨(c10_fallback_name_well_formed "hello").1,
   (c10_fallback_name_well_formed "hello").2.1,
   (c10_fallback_name_well_formed "hello").2.2 (by decide) (by decide)⟩

/-- Claim C6 (counterexample).  The claim's reachability clause — "only
transport/config errors and all-tiers-exhausted empty content fall
through to the pattern fallback" — fails in both directions on the live
(legacy, non-gpt-5) path: a run with no transport error whose
collaborator returns non-empty content parsing to an object with an
unknown resource type reaches the pattern fallback; and a run whose
collaborator returns empty content does NOT reach the pattern fallback,
surfacing a `ResolutionError` instead. -/
theorem c6_counterexample_fallback_reachability :
    parse_request
        (fun _ => some (.obj
          [("resource_type", Json.str "cache"), ("name", Json.str "c")]))
        "gpt-4" "build a cache" (.ok "y")
      = .request (fallback_parse "build a cache")
    ∧ parse_request (fun _ => none) "gpt-4" "some ask" (.ok "")
      = .resolutionError "LLM returned empty content." :=
  ⟨rfl, rfl⟩

/-- Claim C6 (amended).  On the live (legacy, non-gpt-5) resolver path,
syntactically invalid JSON content from the collaborator surfaces
immediately as a `ResolutionError` and never reaches the tier-4 pattern
fallback; empty collaborator content also surfaces as a
`ResolutionError` rather than falling through; transport/config errors
do reach the pattern fallback.  For gpt-5 model names — the only ones
with the tiered escalation machinery — that machinery is dead code:
the branch dies on the unset `self.api_key` attribute, and every such
run returns the pattern-fallback request without consulting any
collaborator tier. -/
theorem c6_invalid_json_surfaces :
    (∀ (jp : String → Option Json) (model u c : String),
      pyStartsWith model "gpt-5" = false →
      extractMarkdown (pyStrip c) ≠ "" →
      jp (extractMarkdown (pyStrip c)) = none →
      parse_request jp model u (.ok c)
        = .resolutionError "LLM output is not valid JSON")
    ∧ (∀ (jp : String → Option Json) (model u c : String),
      pyStartsWith model "gpt-5" = false →
      extractMarkdown (pyStrip c) = "" →
      parse_request jp model u (.ok c)
        = .resolutionError "LLM returned empty content.")
    ∧ (∀ (jp : String → Option Json) (model u : String),
      pyStartsWith model "gpt-5" = false →
      parse_request jp model u .exn = .request (fallback_parse u))
    ∧ (∀ (jp : String → Option Json) (u : String) (call : AttemptResult),
      parse_request jp "gpt-5" u call = .request (fallback_parse u)) := by
  refine ⟨?_, ?_, ?_, ?_⟩
  · intro jp model u c hm h2 h3
    unfold parse_request
    rw [if_neg (by simp [hm])]
    unfold parse_request_legacy
    show processContent jp u (pyStrip c) = _
    simp only [processContent]
    rw [if_neg h2, h3]
  · intro jp model u c hm h2
    unfold parse_request
    rw [if_neg (by simp [hm])]
    unfold parse_request_legacy
    show processContent jp u (pyStrip c) = _
    simp only [processContent]
    rw [if_pos h2]
  · intro jp model u hm
    unfold parse_request
    rw [if_neg (by simp [hm])]
    rfl
  · intro jp u call
    rfl

/-- Claim C6 (witness): the four amended statements at concrete runs on
the legacy model `gpt-4` and the default model `gpt-5`. -/
theorem c6_invalid_json_surfaces_witness :
    parse_request (fun _ => none) "gpt-4" "w1" (.ok "bad")
      = .resolutionError "LLM output is not valid JSON"
    ∧ parse_request (fun _ => none) "gpt-4" "w2" (.ok "")
      = .resolutionError "LLM returned empty content."
    ∧ parse_request (fun _ => none) "gpt-4" "w3" .exn
      = .request (fallback_parse "w3")
    ∧ parse_request (fun _ => none) "gpt-5" "w4" (.ok "ignored")
      = .request (fallback_parse "w4") :=
  ⟨c6_invalid_json_surfaces.1 _ "gpt-4" "w1" "bad" (by decide) (by decide) rfl,
   c6_invalid_json_surfaces.2.1 _ "gpt-4" "w2" "" (by decide) (by decide),
   c6_invalid_json_surfaces.2.2.1 _ "gpt-4" "w3" (by decide),
   c6_invalid_json_surfaces.2.2.2 _ "w4" (.ok "ignored")⟩
